import Mathlib

/-!
Shallow embedding of `src/FakeNewsDetection-Pipeline/trainer.py`, a TFX Trainer
module file.  TensorFlow / Keras objects (layers, callbacks, datasets, saved
models) are represented symbolically: each framework call that the Python code
performs becomes a Lean value recording exactly the arguments the code passes,
and the pure Python glue (dict lookups, string formatting, the layer-stacking
loop) is translated directly.  Library behaviour that a claim depends on
(the Keras fit callback loop, the TextVectorization lookup) is modelled in a
separate, clearly marked semantic layer.
-/

/-- Python values stored in the hyperparameter dictionary: ints and floats
(floats are modelled as rationals). -/
inductive HVal where
  | int : Int → HVal
  | float : Rat → HVal
deriving DecidableEq, Repr

/-- A Python dict from strings to hyperparameter values, as an association
list with unique keys (dict semantics: lookup of the first matching key). -/
def Hp : Type := List (String × HVal)

/-- Dict lookup, `hp[k]`: `none` models a raised `KeyError`. -/
def hpGet (hp : Hp) (k : String) : Option HVal :=
  match hp with
  | [] => none
  | (k2, v) :: rest => if k2 = k then some v else hpGet rest k

/-- Python `range(v)` used as a loop bound: defined only on ints, and an int
`n` yields `n.toNat` iterations (negative ranges are empty). -/
def pyRange : HVal → Option Nat
  | HVal.int n => some n.toNat
  | HVal.float _ => none

/-- Tensor dtypes that appear in this module. -/
inductive DType where
  | string | int64 | float32
deriving DecidableEq, Repr

/-- A feature spec: a Python dict from feature names to feature dtypes
(the tf.io parsing configuration), as an association list. -/
def FeatureSpec : Type := List (String × DType)

instance : DecidableEq FeatureSpec :=
  inferInstanceAs (DecidableEq (List (String × DType)))

/-- Python dict.pop, `spec.pop(k)`, on a feature spec: removes the key, `none` models the
`KeyError` raised when the key is absent. -/
def specPop (spec : FeatureSpec) (k : String) : Option FeatureSpec :=
  match spec with
  | [] => none
  | (k2, v) :: rest =>
      if k2 = k then some rest
      else (specPop rest k).map (fun r => (k2, v) :: r)

/-- The transform-features layer obtained from a TFTransformOutput; abstract,
identified by the graph it was built from. -/
structure TransformLayer where
  graph_id : Nat
deriving DecidableEq, Repr

/-- `tft.TFTransformOutput`: the artifact loaded from the transform graph
path, exposing the raw and transformed feature specs and the transform layer. -/
structure TFTransformOutput where
  transformed_spec : FeatureSpec
  raw_spec : FeatureSpec
  tft_layer : TransformLayer

/-- Method `transformed_feature_spec()` of TFTransformOutput. -/
def TFTransformOutput.transformed_feature_spec (t : TFTransformOutput) : FeatureSpec :=
  t.transformed_spec

/-- Method `raw_feature_spec()` of TFTransformOutput (returns a fresh dict each call,
so popping from the result never mutates the artifact; immutability is
automatic here). -/
def TFTransformOutput.raw_feature_spec (t : TFTransformOutput) : FeatureSpec :=
  t.raw_spec

/-- Method `transform_features_layer()` of TFTransformOutput. -/
def TFTransformOutput.transform_features_layer (t : TFTransformOutput) : TransformLayer :=
  t.tft_layer

/-- A `tf.data.TFRecordDataset(filenames, compression_type=...)` value. -/
structure TFRecordDatasetDesc where
  filenames : List String
  compression_type : String
deriving DecidableEq, Repr

/-- Activation functions used in this module. -/
inductive Activation where
  | relu | sigmoid
deriving DecidableEq, Repr

/-- Arguments of the `layers.TextVectorization` constructor call. -/
structure VectorizerConfig where
  max_tokens : Nat
  output_mode : String
  output_sequence_length : Nat
deriving DecidableEq, Repr

/-- A Keras layer application recorded symbolically, with the arguments the
source passes to each constructor. -/
inductive Layer where
  | textVectorization (cfg : VectorizerConfig)
  | embedding (input_dim : Nat) (output_dim : HVal)
  | bidirectionalLSTM (units : HVal)
  | dense (units : HVal) (activation : Activation)
  | dropout (rate : HVal)
deriving DecidableEq, Repr

/-- Optimizers used in this module. -/
inductive Optimizer where
  | adam (learning_rate : Rat)
deriving DecidableEq, Repr

/-- Losses used in this module. -/
inductive Loss where
  | binaryCrossentropy
deriving DecidableEq, Repr

/-- Metrics used in this module. -/
inductive Metric where
  | binaryAccuracy
deriving DecidableEq, Repr

/-- The `model.compile(...)` arguments. -/
structure CompileConfig where
  optimizer : Optimizer
  loss : Loss
  metrics : List Metric
deriving DecidableEq, Repr

/-- A symbolic Keras functional model: the input tensor description, the layer
stack applied to it in order, and the compile configuration. -/
structure Model where
  input_name : String
  input_shape : List (Option Nat)
  input_dtype : DType
  layers : List Layer
  compileCfg : CompileConfig
deriving DecidableEq, Repr

/-- Keras callbacks constructed in `run_fn`, with the arguments the source
passes; fields the source leaves at their Keras defaults and that claims
depend on are recorded explicitly (`restore_best_weights` defaults to
`false`, `save_best_only` is passed). -/
inductive Callback where
  | tensorBoard (log_dir : String) (update_freq : String)
  | earlyStopping (monitor : String) (mode : String) (verbose : Nat)
      (patience : Nat) (restore_best_weights : Bool)
  | modelCheckpoint (filepath : String) (monitor : String) (mode : String)
      (verbose : Nat) (save_best_only : Bool)
deriving DecidableEq, Repr

/-- The dataset returned by `tf.data.experimental.make_batched_features_dataset`,
recorded as the arguments the source passes to it. -/
structure DatasetConfig where
  file_pattern : List String
  batch_size : Nat
  features : FeatureSpec
  reader : List String → TFRecordDatasetDesc
  num_epochs : HVal
  label_key : String

/-- The arguments of the `model.fit(...)` call. -/
structure FitConfig where
  x : DatasetConfig
  steps_per_epoch : Nat
  validation_data : DatasetConfig
  validation_steps : Nat
  callbacks : List Callback
  epochs : HVal
  verbose : Nat

/-- A `tf.TensorSpec(shape=..., dtype=..., name=...)`; `none` in the shape is
Python `None` (unconstrained dimension). -/
structure TensorSpecDesc where
  shape : List (Option Nat)
  dtype : DType
  name : String
deriving DecidableEq, Repr

/-- The serving function produced by `_get_serve_tf_example_fn`: the feature
spec it parses serialized examples with, the transform layer it applies, and
the model it applies to the transformed features. -/
structure ServeFnDesc where
  parse_spec : FeatureSpec
  tft_layer : TransformLayer
  model : Model

/-- A concrete function obtained by `get_concrete_function` on the serving
function at a given input signature. -/
structure ConcreteFn where
  fn : ServeFnDesc
  input_spec : TensorSpecDesc

/-- The `model.save(...)` call. -/
structure SaveCall where
  path : String
  save_format : String
  signatures : List (String × ConcreteFn)

/-- Embedding of `FnArgs` as consumed by `run_fn`: the fields of the TFX-provided argument
object that the source reads.  `hyperparameters` is a dict whose "values"
entry is the hyperparameter dict. -/
structure FnArgs where
  hyperparameters : List (String × Hp)
  serving_model_dir : String
  transform_graph_path : String
  train_files : List String
  eval_files : List String
  train_steps : Nat
  eval_steps : Nat

/-- Lookup in the outer hyperparameters dict, `fn_args.hyperparameters["values"]`. -/
def outerGet (d : List (String × Hp)) (k : String) : Option Hp :=
  match d with
  | [] => none
  | (k2, v) :: rest => if k2 = k then some v else outerGet rest k

/-- Model of `os.path.dirname` for the relative POSIX paths this module
handles: everything before the final slash, empty when there is none. -/
def os_path_dirname (p : String) : String :=
  let parts := p.splitOn "/"
  if parts.length ≤ 1 then "" else String.intercalate "/" parts.dropLast

/-- Model of `os.path.join a b` for the relative POSIX paths this module
handles. -/
def os_path_join (a b : String) : String :=
  if a = "" then b else a ++ "/" ++ b

/-- Constant `LABEL_KEY = "class"` (trainer.py line 9). -/
def LABEL_KEY : String := "class"

/-- Constant `FEATURE_KEY = "text"` (trainer.py line 10). -/
def FEATURE_KEY : String := "text"

/-- Embedding of `transformed_name` (trainer.py line 13). -/
def transformed_name (key : String) : String :=
  key ++ "_xf"

/-- Embedding of `gzip_reader_fn` (trainer.py line 17). -/
def gzip_reader_fn (filenames : List String) : TFRecordDatasetDesc :=
  { filenames := filenames, compression_type := "GZIP" }

/-- Embedding of `input_fn` (trainer.py lines 21-35). -/
def input_fn (file_pattern : List String) (tf_transform_output : TFTransformOutput)
    (num_epochs : HVal) (batch_size : Nat := 64) : DatasetConfig :=
  let transform_feature_spec := tf_transform_output.transformed_feature_spec
  { file_pattern := file_pattern
    batch_size := batch_size
    features := transform_feature_spec
    reader := gzip_reader_fn
    num_epochs := num_epochs
    label_key := transformed_name LABEL_KEY }

/-- The body of the `for _ in range(hp["hidden_layers"])` loop in
`model_builder` (trainer.py lines 46-48), iterated `n` times: each iteration
looks up `dense_units` and `dropout_rate` in `hp` and appends a Dense(relu)
then a Dropout layer.  `none` models a `KeyError` inside the loop. -/
def denseDropoutBlocks (hp : Hp) : Nat → Option (List Layer)
  | 0 => some []
  | n + 1 => do
      let du ← hpGet hp "dense_units"
      let dr ← hpGet hp "dropout_rate"
      let rest ← denseDropoutBlocks hp n
      some ([Layer.dense du Activation.relu, Layer.dropout dr] ++ rest)

/-- Embedding of `model_builder` (trainer.py lines 37-62).  `none` models a raised Python
exception (missing hyperparameter key, or a non-int `hidden_layers` passed to
`range`). -/
def model_builder (vectorizer_layer : VectorizerConfig) (hp : Hp) : Option Model := do
  let embedding_size ← hpGet hp "embedding_size"
  let lstm_units ← hpGet hp "lstm_units"
  let hidden_layers ← hpGet hp "hidden_layers"
  let n ← pyRange hidden_layers
  let blocks ← denseDropoutBlocks hp n
  some
    { input_name := transformed_name FEATURE_KEY
      input_shape := [some 1]
      input_dtype := DType.string
      layers :=
        [Layer.textVectorization vectorizer_layer,
         Layer.embedding 5000 embedding_size,
         Layer.bidirectionalLSTM lstm_units]
        ++ blocks
        ++ [Layer.dense (HVal.int 1) Activation.sigmoid]
      compileCfg :=
        { optimizer := Optimizer.adam (1 / 10000)
          loss := Loss.binaryCrossentropy
          metrics := [Metric.binaryAccuracy] } }

/-- Embedding of `_get_serve_tf_example_fn` (trainer.py lines 64-80), together with the
tracing of its inner `serve_tf_examples_fn`: the traced function parses with
the raw feature spec minus `LABEL_KEY` (`none` models the `KeyError` from
`pop` when the label key is absent), applies the transform layer stored on
the model (`model.tft_layer = tf_transform_output.transform_features_layer()`),
and applies the model. -/
def _get_serve_tf_example_fn (model : Model) (tf_transform_output : TFTransformOutput) :
    Option ServeFnDesc := do
  let feature_spec ← specPop tf_transform_output.raw_feature_spec LABEL_KEY
  some
    { parse_spec := feature_spec
      tft_layer := tf_transform_output.transform_features_layer
      model := model }

/-- Everything `run_fn` builds, in the order the source builds it. -/
structure RunResult where
  log_dir : String
  callbacks : List Callback
  tf_transform_output : TFTransformOutput
  train_set : DatasetConfig
  eval_set : DatasetConfig
  vectorizer_layer : VectorizerConfig
  model : Model
  fit : FitConfig
  save : SaveCall

/-- Embedding of `run_fn` (trainer.py lines 83-135).  `load` models
`tft.TFTransformOutput(path)`, the deserialization of the transform-graph
artifact at a path; `none` models a raised Python exception. -/
def run_fn (load : String → TFTransformOutput) (fn_args : FnArgs) : Option RunResult := do
  let hyperparameters ← outerGet fn_args.hyperparameters "values"
  let log_dir := os_path_join (os_path_dirname fn_args.serving_model_dir) "logs"
  let callbacks : List Callback :=
    [Callback.tensorBoard log_dir "batch",
     Callback.earlyStopping "val_binary_accuracy" "max" 1 10 false,
     Callback.modelCheckpoint fn_args.serving_model_dir "val_binary_accuracy" "max" 1 true]
  let tf_transform_output := load fn_args.transform_graph_path
  let epochs1 ← hpGet hyperparameters "tuner/epochs"
  let train_set := input_fn fn_args.train_files tf_transform_output epochs1
  let epochs2 ← hpGet hyperparameters "tuner/epochs"
  let eval_set := input_fn fn_args.eval_files tf_transform_output epochs2
  let vectorizer_layer : VectorizerConfig :=
    { max_tokens := 5000, output_mode := "int", output_sequence_length := 500 }
  let model ← model_builder vectorizer_layer hyperparameters
  let epochs3 ← hpGet hyperparameters "tuner/epochs"
  let fitCfg : FitConfig :=
    { x := train_set
      steps_per_epoch := fn_args.train_steps
      validation_data := eval_set
      validation_steps := fn_args.eval_steps
      callbacks := callbacks
      epochs := epochs3
      verbose := 1 }
  let serveFn ← _get_serve_tf_example_fn model tf_transform_output
  let signatures : List (String × ConcreteFn) :=
    [("serving_default",
      { fn := serveFn
        input_spec := { shape := [none], dtype := DType.string, name := "examples" } })]
  some
    { log_dir := log_dir
      callbacks := callbacks
      tf_transform_output := tf_transform_output
      train_set := train_set
      eval_set := eval_set
      vectorizer_layer := vectorizer_layer
      model := model
      fit := fitCfg
      save := { path := fn_args.serving_model_dir, save_format := "tf", signatures := signatures } }

/-!
Semantic layer: models of the framework behaviour that the claims quantify
over, clearly separated from the embedding of the source file above.
-/

/-- Denotation of the traced serving function, parametric in interpretations
of the three framework primitives it composes: example parsing, the transform
layer, and model application. -/
def ServeFnDesc.eval {P F O : Type} (d : ServeFnDesc)
    (parse : FeatureSpec → List String → P)
    (transform : TransformLayer → P → F)
    (applyModel : Model → F → O)
    (serialized_tf_examples : List String) : O :=
  applyModel d.model (transform d.tft_layer (parse d.parse_spec serialized_tf_examples))

/-- State of the modelled Keras fit loop: current model weights (an abstract
type), the EarlyStopping state (best monitored value, none meaning negative
infinity, and the wait counter), the ModelCheckpoint state (best monitored
value), the checkpoint writes made so far, the stop flag, and the number of
epochs executed. -/
structure FitSimState (W : Type) where
  weights : W
  es_best : Option Rat
  es_wait : Nat
  ck_best : Option Rat
  writes : List (String × W)
  stop_training : Bool
  epochs_run : Nat

/-- Initial fit-loop state with the pre-training weights. -/
def FitSimState.init {W : Type} (w : W) : FitSimState W :=
  { weights := w, es_best := none, es_wait := 0, ck_best := none,
    writes := [], stop_training := false, epochs_run := 0 }

/-- Keras improvement test in mode "max" with the default min_delta 0: the
current monitored value strictly exceeds the best seen so far (`none` models
the initial best of negative infinity). -/
def improves (best : Option Rat) (current : Rat) : Bool :=
  match best with
  | none => true
  | some b => decide (b < current)

/-- Model of one epoch of Keras `model.fit` under the three callbacks built
by `run_fn`: the epoch ends with weights `w` and monitored value `acc`
(val_binary_accuracy); EarlyStopping (mode max) resets or increments its wait
counter and raises the stop flag once the counter reaches the patience;
ModelCheckpoint with save_best_only (mode max) writes the current weights to
its filepath exactly when the monitored value improves. -/
def fitEpoch {W : Type} (ckpt_path : String) (patience : Nat)
    (st : FitSimState W) (w : W) (acc : Rat) : FitSimState W :=
  let esImp := improves st.es_best acc
  let wait := if esImp then 0 else st.es_wait + 1
  let ckImp := improves st.ck_best acc
  { weights := w
    es_best := if esImp then some acc else st.es_best
    es_wait := wait
    ck_best := if ckImp then some acc else st.ck_best
    writes := st.writes ++ (if ckImp then [(ckpt_path, w)] else [])
    stop_training := decide (patience ≤ wait)
    epochs_run := st.epochs_run + 1 }

/-- Model of the Keras `model.fit` epoch loop: runs at most the given number
of epochs, stopping early once the stop flag is set; `trace k` gives the
weights and monitored validation accuracy produced by epoch `k`. -/
def fitLoop {W : Type} (ckpt_path : String) (patience : Nat)
    (trace : Nat → W × Rat) : Nat → FitSimState W → FitSimState W
  | 0, st => st
  | n + 1, st =>
      match st.stop_training with
      | true => st
      | false =>
          fitLoop ckpt_path patience trace n
            (fitEpoch ckpt_path patience st (trace st.epochs_run).1 (trace st.epochs_run).2)

/-- Full fit simulation from the initial state. -/
def simulateFit {W : Type} (ckpt_path : String) (patience : Nat) (epochs : Nat)
    (initW : W) (trace : Nat → W × Rat) : FitSimState W :=
  fitLoop ckpt_path patience trace epochs (FitSimState.init initW)

/-- Filepath of the first ModelCheckpoint callback in a callback list. -/
def checkpointFilepath : List Callback → Option String
  | [] => none
  | Callback.modelCheckpoint p _ _ _ _ :: _ => some p
  | _ :: cs => checkpointFilepath cs

/-- Patience of the first EarlyStopping callback in a callback list. -/
def earlyStoppingPatience : List Callback → Option Nat
  | [] => none
  | Callback.earlyStopping _ _ _ p _ :: _ => some p
  | _ :: cs => earlyStoppingPatience cs

/-- Value of restore_best_weights on the first EarlyStopping callback in a
callback list. -/
def earlyStoppingRestoreBest : List Callback → Option Bool
  | [] => none
  | Callback.earlyStopping _ _ _ _ r :: _ => some r
  | _ :: cs => earlyStoppingRestoreBest cs

/-- Sequence of writes `run_fn` makes to model directories for a given
training trace: the ModelCheckpoint writes made during `model.fit` (driven by
the checkpoint filepath and EarlyStopping patience configured in the fit
callbacks), followed by the final `model.save` of the current weights. -/
def runFnDiskWrites {W : Type} (res : RunResult) (epochs : Nat) (initW : W)
    (trace : Nat → W × Rat) : List (String × W) :=
  let ck := (checkpointFilepath res.fit.callbacks).getD res.save.path
  let pat := (earlyStoppingPatience res.fit.callbacks).getD 0
  let final := simulateFit ck pat epochs initW trace
  final.writes ++ [(res.save.path, final.weights)]

/-- Position of the first occurrence of a string in a vocabulary list. -/
def lookupIdx : List String → String → Option Nat
  | [], _ => none
  | v :: vs, t => if v = t then some 0 else (lookupIdx vs t).map (fun n => n + 1)

/-- Semantic model of one token lookup in an adapted Keras TextVectorization
layer in "int" output mode: the adapted vocabulary is truncated to
max_tokens - 2 entries because index 0 is reserved for padding and index 1
for out-of-vocabulary tokens; a vocabulary token maps to its index plus 2 and
anything else to 1. -/
def vectorizeToken (cfg : VectorizerConfig) (vocab : List String) (tok : String) : Nat :=
  match lookupIdx (vocab.take (cfg.max_tokens - 2)) tok with
  | some i => i + 2
  | none => 1

/-- Semantic model of the adapted TextVectorization layer applied to a
tokenized input string: token indices, truncated or padded with the padding
index 0 to output_sequence_length. -/
def textVectorize (cfg : VectorizerConfig) (vocab : List String) (tokens : List String) : List Nat :=
  let ids := tokens.map (vectorizeToken cfg vocab)
  ids.take cfg.output_sequence_length ++
    List.replicate (cfg.output_sequence_length - ids.length) 0

/-- Input dimension of the first Embedding layer in a layer stack. -/
def embeddingInputDim : List Layer → Option Nat
  | [] => none
  | Layer.embedding d _ :: _ => some d
  | _ :: ls => embeddingInputDim ls

/-- Real-valued sigmoid, the mathematical idealization of tf.nn.sigmoid
(float rounding is outside the embedding). -/
noncomputable def sigmoidReal (x : ℝ) : ℝ := 1 / (1 + Real.exp (-x))

/-- Python top-level statements at the granularity needed to describe this
module file: imports, string-literal assignments, function definitions, and,
for contrast, top-level expression statements that would execute framework
code at import time. -/
inductive PyStmt where
  | importStmt (module : String)
  | fromImport (module : String) (names : List String)
  | assignStrLit (name : String) (value : String)
  | defStmt (name : String)
  | exprCall (description : String)
deriving DecidableEq, Repr

/-- The top-level statement list of trainer.py, in source order
(lines 1-10 and the six function definitions). -/
def trainerModuleBody : List PyStmt :=
  [PyStmt.importStmt "os",
   PyStmt.importStmt "tensorflow",
   PyStmt.importStmt "tensorflow_transform",
   PyStmt.importStmt "tensorflow_hub",
   PyStmt.fromImport "tensorflow.keras" ["layers"],
   PyStmt.fromImport "tfx.components.trainer.fn_args_utils" ["FnArgs"],
   PyStmt.assignStrLit "LABEL_KEY" "class",
   PyStmt.assignStrLit "FEATURE_KEY" "text",
   PyStmt.defStmt "transformed_name",
   PyStmt.defStmt "gzip_reader_fn",
   PyStmt.defStmt "input_fn",
   PyStmt.defStmt "model_builder",
   PyStmt.defStmt "_get_serve_tf_example_fn",
   PyStmt.defStmt "run_fn"]

/-- Whether evaluating a top-level statement executes anything beyond binding
a name: only expression statements do (reading data, training, or saving a
model at import time would be such a statement). -/
def PyStmt.performsWork : PyStmt → Bool
  | PyStmt.exprCall _ => true
  | _ => false

/-- Names of the functions a statement list defines, in order. -/
def boundFunctions : List PyStmt → List String
  | [] => []
  | PyStmt.defStmt n :: rest => n :: boundFunctions rest
  | _ :: rest => boundFunctions rest

/-- String constants a statement list binds, in order. -/
def boundStrConstants : List PyStmt → List (String × String)
  | [] => []
  | PyStmt.assignStrLit n v :: rest => (n, v) :: boundStrConstants rest
  | _ :: rest => boundStrConstants rest

/-- The list of hyperparameter keys `model_builder` consumes. -/
def modelHpKeys : List String :=
  ["embedding_size", "lstm_units", "hidden_layers", "dense_units", "dropout_rate"]

/-- Agreement of two hyperparameter dicts on a list of keys. -/
def hpAgreeOn (hp1 hp2 : Hp) (keys : List String) : Prop :=
  ∀ k ∈ keys, hpGet hp1 k = hpGet hp2 k

/-!
Concrete example environment used to instantiate theorems with hypotheses.
-/

/-- A concrete transform output: raw features text / class, transformed
features text_xf / class_xf. -/
def exTfo : TFTransformOutput :=
  { transformed_spec := [("text_xf", DType.string), ("class_xf", DType.int64)]
    raw_spec := [("text", DType.string), ("class", DType.int64)]
    tft_layer := { graph_id := 0 } }

/-- A concrete transform-graph loader. -/
def exLoad : String → TFTransformOutput := fun _ => exTfo

/-- A concrete hyperparameter dict with every key the module reads. -/
def exHp : Hp :=
  [("embedding_size", HVal.int 16),
   ("lstm_units", HVal.int 32),
   ("hidden_layers", HVal.int 2),
   ("dense_units", HVal.int 64),
   ("dropout_rate", HVal.float 0),
   ("tuner/epochs", HVal.int 5)]

/-- A concrete FnArgs value. -/
def exArgs : FnArgs :=
  { hyperparameters := [("values", exHp)]
    serving_model_dir := "serving_model/fake-news-model"
    transform_graph_path := "transform_graph"
    train_files := ["train-00000-of-00001.gz"]
    eval_files := ["eval-00000-of-00001.gz"]
    train_steps := 100
    eval_steps := 10 }

/-- The vectorizer configuration `run_fn` constructs. -/
def exVec : VectorizerConfig :=
  { max_tokens := 5000, output_mode := "int", output_sequence_length := 500 }

/-- The run result on the concrete inputs. -/
def exRes : RunResult := (run_fn exLoad exArgs).get (by rfl)

/-- The model built on the concrete inputs. -/
def exModel : Model := (model_builder exVec exHp).get (by rfl)

theorem run_fn_ex : run_fn exLoad exArgs = some exRes := rfl

theorem model_builder_ex : model_builder exVec exHp = some exModel := rfl

/-!
Inversion lemmas for the Option-valued embeddings.
-/

/-- Inversion for `model_builder`: a successful build determines the model
record from the hyperparameter lookups. -/
theorem model_builder_eq_some (v : VectorizerConfig) (hp : Hp) (m : Model)
    (hm : model_builder v hp = some m) :
    ∃ es lu hl n blocks,
      hpGet hp "embedding_size" = some es ∧
      hpGet hp "lstm_units" = some lu ∧
      hpGet hp "hidden_layers" = some hl ∧
      pyRange hl = some n ∧
      denseDropoutBlocks hp n = some blocks ∧
      m = { input_name := transformed_name FEATURE_KEY
            input_shape := [some 1]
            input_dtype := DType.string
            layers :=
              [Layer.textVectorization v,
               Layer.embedding 5000 es,
               Layer.bidirectionalLSTM lu]
              ++ blocks
              ++ [Layer.dense (HVal.int 1) Activation.sigmoid]
            compileCfg :=
              { optimizer := Optimizer.adam (1 / 10000)
                loss := Loss.binaryCrossentropy
                metrics := [Metric.binaryAccuracy] } } := by
  cases h1 : hpGet hp "embedding_size" with
  | none => simp [model_builder, h1] at hm
  | some es =>
  cases h2 : hpGet hp "lstm_units" with
  | none => simp [model_builder, h1, h2] at hm
  | some lu =>
  cases h3 : hpGet hp "hidden_layers" with
  | none => simp [model_builder, h1, h2, h3] at hm
  | some hl =>
  cases h4 : pyRange hl with
  | none => simp [model_builder, h1, h2, h3, h4] at hm
  | some n =>
  cases h5 : denseDropoutBlocks hp n with
  | none => simp [model_builder, h1, h2, h3, h4, h5] at hm
  | some blocks =>
  refine ⟨es, lu, hl, n, blocks, rfl, rfl, rfl, h4, h5, ?_⟩
  refine Option.some.inj (Eq.trans hm.symm ?_)
  simp [model_builder, h1, h2, h3, h4, h5]

/-- Inversion for `_get_serve_tf_example_fn`: a successful trace determines
the serving function description. -/
theorem get_serve_fn_eq_some (m : Model) (tfo : TFTransformOutput) (sf : ServeFnDesc)
    (h : _get_serve_tf_example_fn m tfo = some sf) :
    ∃ spec,
      specPop tfo.raw_feature_spec LABEL_KEY = some spec ∧
      sf = { parse_spec := spec
             tft_layer := tfo.transform_features_layer
             model := m } := by
  cases hp : specPop tfo.raw_feature_spec LABEL_KEY with
  | none => simp [_get_serve_tf_example_fn, hp] at h
  | some spec =>
      refine ⟨spec, rfl, ?_⟩
      refine Option.some.inj (Eq.trans h.symm ?_)
      simp [_get_serve_tf_example_fn, hp]

/-- Inversion for `run_fn`: a successful run determines the whole run result
from the dict lookups and the model build. -/
theorem run_fn_eq_some (load : String → TFTransformOutput) (fn_args : FnArgs)
    (res : RunResult) (h : run_fn load fn_args = some res) :
    ∃ hyper e m sf,
      outerGet fn_args.hyperparameters "values" = some hyper ∧
      hpGet hyper "tuner/epochs" = some e ∧
      model_builder { max_tokens := 5000, output_mode := "int", output_sequence_length := 500 }
        hyper = some m ∧
      _get_serve_tf_example_fn m (load fn_args.transform_graph_path) = some sf ∧
      res = { log_dir := os_path_join (os_path_dirname fn_args.serving_model_dir) "logs"
              callbacks :=
                [Callback.tensorBoard
                   (os_path_join (os_path_dirname fn_args.serving_model_dir) "logs") "batch",
                 Callback.earlyStopping "val_binary_accuracy" "max" 1 10 false,
                 Callback.modelCheckpoint fn_args.serving_model_dir
                   "val_binary_accuracy" "max" 1 true]
              tf_transform_output := load fn_args.transform_graph_path
              train_set := input_fn fn_args.train_files (load fn_args.transform_graph_path) e
              eval_set := input_fn fn_args.eval_files (load fn_args.transform_graph_path) e
              vectorizer_layer :=
                { max_tokens := 5000, output_mode := "int", output_sequence_length := 500 }
              model := m
              fit := { x := input_fn fn_args.train_files (load fn_args.transform_graph_path) e
                       steps_per_epoch := fn_args.train_steps
                       validation_data :=
                         input_fn fn_args.eval_files (load fn_args.transform_graph_path) e
                       validation_steps := fn_args.eval_steps
                       callbacks :=
                         [Callback.tensorBoard
                            (os_path_join (os_path_dirname fn_args.serving_model_dir) "logs")
                            "batch",
                          Callback.earlyStopping "val_binary_accuracy" "max" 1 10 false,
                          Callback.modelCheckpoint fn_args.serving_model_dir
                            "val_binary_accuracy" "max" 1 true]
                       epochs := e
                       verbose := 1 }
              save := { path := fn_args.serving_model_dir
                        save_format := "tf"
                        signatures :=
                          [("serving_default",
                            { fn := sf
                              input_spec :=
                                { shape := [none], dtype := DType.string,
                                  name := "examples" } })] } } := by
  cases h1 : outerGet fn_args.hyperparameters "values" with
  | none => simp [run_fn, h1] at h
  | some hyper =>
  cases h2 : hpGet hyper "tuner/epochs" with
  | none => simp [run_fn, h1, h2] at h
  | some e =>
  cases h3 : model_builder
      { max_tokens := 5000, output_mode := "int", output_sequence_length := 500 } hyper with
  | none => simp [run_fn, h1, h2, h3] at h
  | some m =>
  cases h4 : _get_serve_tf_example_fn m (load fn_args.transform_graph_path) with
  | none => simp [run_fn, h1, h2, h3, h4] at h
  | some sf =>
  refine ⟨hyper, e, m, sf, rfl, h2, h3, h4, ?_⟩
  refine Option.some.inj (Eq.trans h.symm ?_)
  simp [run_fn, h1, h2, h3, h4]

/-!
Support lemmas.
-/

/-- The hidden-block loop reads only dense_units and dropout_rate, so two
dicts agreeing on those keys produce the same blocks. -/
theorem denseDropoutBlocks_congr (hp1 hp2 : Hp)
    (h4 : hpGet hp1 "dense_units" = hpGet hp2 "dense_units")
    (h5 : hpGet hp1 "dropout_rate" = hpGet hp2 "dropout_rate") :
    ∀ n, denseDropoutBlocks hp1 n = denseDropoutBlocks hp2 n := by
  intro n
  induction n with
  | zero => rfl
  | succ k ih =>
      simp only [denseDropoutBlocks]
      rw [h4, h5, ih]

/-- model_builder reads only the five hyperparameter keys: two dicts agreeing
on embedding_size, lstm_units, hidden_layers, dense_units and dropout_rate
build the same model. -/
theorem model_builder_congr (v : VectorizerConfig) (hp1 hp2 : Hp)
    (hag : hpAgreeOn hp1 hp2 modelHpKeys) :
    model_builder v hp1 = model_builder v hp2 := by
  have h1 := hag "embedding_size" (by simp [modelHpKeys])
  have h2 := hag "lstm_units" (by simp [modelHpKeys])
  have h3 := hag "hidden_layers" (by simp [modelHpKeys])
  have h4 := hag "dense_units" (by simp [modelHpKeys])
  have h5 := hag "dropout_rate" (by simp [modelHpKeys])
  simp only [model_builder, h1, h2, h3, denseDropoutBlocks_congr hp1 hp2 h4 h5]

/-- Closed form of the hidden-block loop when both keys are present: n copies
of a Dense(relu) layer followed by a Dropout layer. -/
theorem denseDropoutBlocks_eq (hp : Hp) (du dr : HVal)
    (h4 : hpGet hp "dense_units" = some du)
    (h5 : hpGet hp "dropout_rate" = some dr) :
    ∀ n, denseDropoutBlocks hp n =
      some (List.flatten (List.replicate n [Layer.dense du Activation.relu, Layer.dropout dr])) := by
  intro n
  induction n with
  | zero => rfl
  | succ k ih =>
      simp only [denseDropoutBlocks, h4, h5, ih, List.replicate_succ, List.flatten_cons,
        Option.bind_eq_bind, Option.some_bind]

/-- Every write made by an epoch step goes to the checkpoint filepath. -/
theorem fitEpoch_writes_path {W : Type} (ck : String) (pat : Nat)
    (st : FitSimState W) (w : W) (acc : Rat)
    (hst : ∀ p x, (p, x) ∈ st.writes → p = ck) :
    ∀ p x, (p, x) ∈ (fitEpoch ck pat st w acc).writes → p = ck := by
  intro p x hmem
  simp only [fitEpoch] at hmem
  rcases List.mem_append.1 hmem with h | h
  · exact hst p x h
  · rcases hif : improves st.ck_best acc with _ | _ <;> rw [hif] at h
    · simp at h
    · simp at h
      exact h.1

/-- Every write made by the fit loop goes to the checkpoint filepath. -/
theorem fitLoop_writes_path {W : Type} (ck : String) (pat : Nat)
    (trace : Nat → W × Rat) :
    ∀ (n : Nat) (st : FitSimState W),
      (∀ p x, (p, x) ∈ st.writes → p = ck) →
      ∀ p x, (p, x) ∈ (fitLoop ck pat trace n st).writes → p = ck := by
  intro n
  induction n with
  | zero => intro st hst; exact hst
  | succ k ih =>
      intro st hst
      cases hstop : st.stop_training with
      | true =>
          simp only [fitLoop, hstop]
          exact hst
      | false =>
          simp only [fitLoop, hstop]
          exact ih _ (fitEpoch_writes_path ck pat st _ _ hst)

/-- After the fit loop, either no epoch ran from the given state (state is
returned unchanged), or the current weights are those produced by the last
executed epoch. -/
theorem fitLoop_weights {W : Type} (ck : String) (pat : Nat)
    (trace : Nat → W × Rat) :
    ∀ (n : Nat) (st : FitSimState W),
      (fitLoop ck pat trace n st).epochs_run = st.epochs_run ∧
        (fitLoop ck pat trace n st).weights = st.weights
      ∨ st.epochs_run < (fitLoop ck pat trace n st).epochs_run ∧
        (fitLoop ck pat trace n st).weights =
          (trace ((fitLoop ck pat trace n st).epochs_run - 1)).1 := by
  intro n
  induction n with
  | zero => intro st; left; exact ⟨rfl, rfl⟩
  | succ k ih =>
      intro st
      cases hstop : st.stop_training with
      | true =>
          simp [fitLoop, hstop]
      | false =>
          simp only [fitLoop, hstop]
          rcases ih (fitEpoch ck pat st (trace st.epochs_run).1 (trace st.epochs_run).2) with
            ⟨he, hw⟩ | ⟨he, hw⟩
          · right
            refine ⟨?_, ?_⟩
            · rw [he]
              show st.epochs_run < st.epochs_run + 1
              omega
            · rw [hw, he]
              show (trace st.epochs_run).1 = (trace (st.epochs_run + 1 - 1)).1
              simp
          · right
            refine ⟨?_, hw⟩
            have hstep : (fitEpoch ck pat st (trace st.epochs_run).1
                (trace st.epochs_run).2).epochs_run = st.epochs_run + 1 := rfl
            omega

/-- A vocabulary index returned by lookupIdx is within the list length. -/
theorem lookupIdx_lt_length (t : String) :
    ∀ (l : List String) (i : Nat), lookupIdx l t = some i → i < l.length := by
  intro l
  induction l with
  | nil => intro i h; simp [lookupIdx] at h
  | cons v vs ih =>
      intro i h
      simp only [lookupIdx] at h
      by_cases hv : v = t
      · rw [if_pos hv] at h
        cases h
        simp
      · rw [if_neg hv] at h
        cases hj : lookupIdx vs t with
        | none => rw [hj] at h; simp at h
        | some j =>
            rw [hj] at h
            simp at h
            have := ih j hj
            simp only [List.length_cons]
            omega

/-- Every index produced by the TextVectorization model is below max_tokens
whenever max_tokens is at least 2. -/
theorem textVectorize_lt_max_tokens (cfg : VectorizerConfig) (vocab tokens : List String)
    (hmt : 2 ≤ cfg.max_tokens) :
    ∀ i ∈ textVectorize cfg vocab tokens, i < cfg.max_tokens := by
  intro i hi
  simp only [textVectorize] at hi
  rcases List.mem_append.1 hi with h | h
  · have hmap := List.mem_of_mem_take h
    rcases List.mem_map.1 hmap with ⟨tok, _, htok⟩
    subst htok
    simp only [vectorizeToken]
    cases hl : lookupIdx (vocab.take (cfg.max_tokens - 2)) tok with
    | none =>
        show 1 < cfg.max_tokens
        omega
    | some j =>
        show j + 2 < cfg.max_tokens
        have hj := lookupIdx_lt_length tok _ j hl
        have hlen : (vocab.take (cfg.max_tokens - 2)).length ≤ cfg.max_tokens - 2 :=
          List.length_take_le _ _
        omega
  · have := List.eq_of_mem_replicate h
    omega

/-!
Claim theorems.
-/

/-- C1: every successful run of run_fn exports the trained model with exactly
one serving signature, registered under the name "serving_default", whose
input is a rank-1 string tensor of unconstrained length named "examples". -/
theorem run_fn_single_serving_signature (load : String → TFTransformOutput)
    (fn_args : FnArgs) (res : RunResult) (h : run_fn load fn_args = some res) :
    res.save.signatures.length = 1 ∧
    ∃ cfn, res.save.signatures = [("serving_default", cfn)] ∧
      cfn.input_spec = { shape := [none], dtype := DType.string, name := "examples" } := by
  obtain ⟨hyper, e, m, sf, h1, h2, h3, h4, rfl⟩ := run_fn_eq_some load fn_args res h
  exact ⟨rfl, _, rfl, rfl⟩

/-- Witness for C1 at the concrete example run. -/
theorem run_fn_single_serving_signature_witness :
    exRes.save.signatures.length = 1 ∧
    ∃ cfn, exRes.save.signatures = [("serving_default", cfn)] ∧
      cfn.input_spec = { shape := [none], dtype := DType.string, name := "examples" } :=
  run_fn_single_serving_signature exLoad exArgs exRes rfl

/-- C2: the serving function parses serialized raw examples with the raw
feature spec minus the label key "class", applies the transform-features
layer of the same TFTransformOutput used to build the training and
evaluation datasets, and returns the model applied to the transformed
features. -/
theorem serving_uses_train_transform_graph (load : String → TFTransformOutput)
    (fn_args : FnArgs) (res : RunResult)
    (P F O : Type) (parse : FeatureSpec → List String → P)
    (transform : TransformLayer → P → F) (applyModel : Model → F → O)
    (examples : List String)
    (h : run_fn load fn_args = some res) :
    res.train_set.features = (load fn_args.transform_graph_path).transformed_feature_spec ∧
    res.eval_set.features = (load fn_args.transform_graph_path).transformed_feature_spec ∧
    ∃ cfn spec,
      res.save.signatures = [("serving_default", cfn)] ∧
      specPop (load fn_args.transform_graph_path).raw_feature_spec LABEL_KEY = some spec ∧
      cfn.fn.parse_spec = spec ∧
      cfn.fn.tft_layer = (load fn_args.transform_graph_path).transform_features_layer ∧
      cfn.fn.model = res.model ∧
      cfn.fn.eval parse transform applyModel examples =
        applyModel res.model
          (transform ((load fn_args.transform_graph_path).transform_features_layer)
            (parse spec examples)) := by
  obtain ⟨hyper, e, m, sf, h1, h2, h3, h4, rfl⟩ := run_fn_eq_some load fn_args res h
  obtain ⟨spec, hs, rfl⟩ := get_serve_fn_eq_some m _ sf h4
  exact ⟨rfl, rfl, _, spec, rfl, hs, rfl, rfl, rfl, rfl⟩

/-- Witness for C2 at the concrete example run with concrete interpretations
of the framework primitives. -/
theorem serving_uses_train_transform_graph_witness :
    exRes.train_set.features = (exLoad exArgs.transform_graph_path).transformed_feature_spec ∧
    exRes.eval_set.features = (exLoad exArgs.transform_graph_path).transformed_feature_spec ∧
    ∃ cfn spec,
      exRes.save.signatures = [("serving_default", cfn)] ∧
      specPop (exLoad exArgs.transform_graph_path).raw_feature_spec LABEL_KEY = some spec ∧
      cfn.fn.parse_spec = spec ∧
      cfn.fn.tft_layer = (exLoad exArgs.transform_graph_path).transform_features_layer ∧
      cfn.fn.model = exRes.model ∧
      cfn.fn.eval (fun _ _ => (0 : Nat)) (fun _ _ => (1 : Nat)) (fun _ _ => (2 : Nat)) [] =
        (fun (_ : Model) (_ : Nat) => (2 : Nat)) exRes.model
          ((fun (_ : TransformLayer) (_ : Nat) => (1 : Nat))
            ((exLoad exArgs.transform_graph_path).transform_features_layer)
            ((fun (_ : FeatureSpec) (_ : List String) => (0 : Nat)) spec [])) :=
  serving_uses_train_transform_graph exLoad exArgs exRes Nat Nat Nat
    (fun _ _ => 0) (fun _ _ => 1) (fun _ _ => 2) [] rfl

/-- C7: input_fn returns a batched dataset with batch size 64 unless
overridden, built from the transformed feature spec of the transform output,
read through the GZIP TFRecord reader, labelled by the transformed label key
class_xf obtained by appending _xf to the raw label key class. -/
theorem input_fn_reads_transformed_records (file_pattern : List String)
    (tf_transform_output : TFTransformOutput) (num_epochs : HVal) (b : Nat)
    (filenames : List String) (key : String) :
    (input_fn file_pattern tf_transform_output num_epochs).batch_size = 64 ∧
    (input_fn file_pattern tf_transform_output num_epochs b).batch_size = b ∧
    (input_fn file_pattern tf_transform_output num_epochs b).file_pattern = file_pattern ∧
    (input_fn file_pattern tf_transform_output num_epochs b).features =
      tf_transform_output.transformed_feature_spec ∧
    (input_fn file_pattern tf_transform_output num_epochs b).num_epochs = num_epochs ∧
    (input_fn file_pattern tf_transform_output num_epochs b).reader = gzip_reader_fn ∧
    gzip_reader_fn filenames = { filenames := filenames, compression_type := "GZIP" } ∧
    (input_fn file_pattern tf_transform_output num_epochs b).label_key =
      transformed_name LABEL_KEY ∧
    transformed_name LABEL_KEY = "class_xf" ∧
    transformed_name key = key ++ "_xf" :=
  ⟨rfl, rfl, rfl, rfl, rfl, rfl, rfl, rfl, rfl, rfl⟩

/-- C10: evaluating the module top level performs no work — it only binds
imports, the string constants LABEL_KEY and FEATURE_KEY, and the function
definitions — and the four orchestrator entry points are among the functions
it defines. -/
theorem module_top_level_only_binds :
    (∀ s ∈ trainerModuleBody, s.performsWork = false) ∧
    boundStrConstants trainerModuleBody =
      [("LABEL_KEY", LABEL_KEY), ("FEATURE_KEY", FEATURE_KEY)] ∧
    LABEL_KEY = "class" ∧
    FEATURE_KEY = "text" ∧
    boundFunctions trainerModuleBody =
      ["transformed_name", "gzip_reader_fn", "input_fn", "model_builder",
       "_get_serve_tf_example_fn", "run_fn"] ∧
    "input_fn" ∈ boundFunctions trainerModuleBody ∧
    "model_builder" ∈ boundFunctions trainerModuleBody ∧
    "run_fn" ∈ boundFunctions trainerModuleBody ∧
    "_get_serve_tf_example_fn" ∈ boundFunctions trainerModuleBody := by
  decide

/-- C3: the callback list passed to model.fit always contains an
EarlyStopping callback monitoring val_binary_accuracy in max mode with
patience 10 and a ModelCheckpoint callback writing to the serving model
directory with save_best_only, and a best-only checkpoint saves exactly when
the monitored value strictly improves. -/
theorem fit_callbacks_early_stopping_checkpoint (load : String → TFTransformOutput)
    (fn_args : FnArgs) (res : RunResult)
    (W : Type) (ck : String) (pat : Nat) (st : FitSimState W) (w : W) (acc : Rat)
    (h : run_fn load fn_args = some res) :
    Callback.earlyStopping "val_binary_accuracy" "max" 1 10 false ∈ res.fit.callbacks ∧
    Callback.modelCheckpoint fn_args.serving_model_dir "val_binary_accuracy" "max" 1 true
      ∈ res.fit.callbacks ∧
    ((fitEpoch ck pat st w acc).writes = st.writes ++ [(ck, w)] ↔
      improves st.ck_best acc = true) ∧
    (improves st.ck_best acc = false → (fitEpoch ck pat st w acc).writes = st.writes) := by
  obtain ⟨hyper, e, m, sf, h1, h2, h3, h4, rfl⟩ := run_fn_eq_some load fn_args res h
  refine ⟨by simp, by simp, ?_, ?_⟩
  · cases himp : improves st.ck_best acc with
    | false => simp [fitEpoch, himp]
    | true => simp [fitEpoch, himp]
  · intro himp
    simp [fitEpoch, himp]

/-- Witness for C3 at the concrete example run and a concrete checkpoint
state. -/
theorem fit_callbacks_early_stopping_checkpoint_witness :
    Callback.earlyStopping "val_binary_accuracy" "max" 1 10 false ∈ exRes.fit.callbacks ∧
    Callback.modelCheckpoint exArgs.serving_model_dir "val_binary_accuracy" "max" 1 true
      ∈ exRes.fit.callbacks ∧
    ((fitEpoch "ck" 10 (FitSimState.init (0 : Nat)) 1 (1 / 2)).writes =
        (FitSimState.init (0 : Nat)).writes ++ [("ck", 1)] ↔
      improves (FitSimState.init (0 : Nat)).ck_best (1 / 2) = true) ∧
    (improves (FitSimState.init (0 : Nat)).ck_best (1 / 2) = false →
      (fitEpoch "ck" 10 (FitSimState.init (0 : Nat)) 1 (1 / 2)).writes =
        (FitSimState.init (0 : Nat)).writes) :=
  fit_callbacks_early_stopping_checkpoint exLoad exArgs exRes Nat "ck" 10
    (FitSimState.init 0) 1 (1 / 2) rfl

/-- C4: the ModelCheckpoint callback and the final model.save write to the
same serving model directory, EarlyStopping is configured without restoring
best weights, and for every training trace the exported artifact holds the
weights of the last executed epoch. -/
theorem export_holds_last_epoch_weights (load : String → TFTransformOutput)
    (fn_args : FnArgs) (res : RunResult) (n : Nat)
    (W : Type) (initW : W) (trace : Nat → W × Rat)
    (h : run_fn load fn_args = some res) (hn : pyRange res.fit.epochs = some n) :
    checkpointFilepath res.fit.callbacks = some res.save.path ∧
    res.save.path = fn_args.serving_model_dir ∧
    earlyStoppingRestoreBest res.fit.callbacks = some false ∧
    runFnDiskWrites res n initW trace =
      (simulateFit fn_args.serving_model_dir 10 n initW trace).writes ++
        [(fn_args.serving_model_dir,
          (simulateFit fn_args.serving_model_dir 10 n initW trace).weights)] ∧
    (∀ p x, (p, x) ∈ runFnDiskWrites res n initW trace → p = fn_args.serving_model_dir) ∧
    (∀ k, (simulateFit fn_args.serving_model_dir 10 n initW trace).epochs_run = k + 1 →
      (simulateFit fn_args.serving_model_dir 10 n initW trace).weights = (trace k).1) := by
  obtain ⟨hyper, e, m, sf, h1, h2, h3, h4, rfl⟩ := run_fn_eq_some load fn_args res h
  have heq : ∀ x1 x2 x3 x4 x5 x6 x7 x8 x9,
      runFnDiskWrites
        { log_dir := x1, callbacks := x2, tf_transform_output := x3, train_set := x4,
          eval_set := x5, vectorizer_layer := x6, model := x7,
          fit := { x := x4, steps_per_epoch := x8, validation_data := x5,
                   validation_steps := x9, callbacks :=
                     [Callback.tensorBoard x1 "batch",
                      Callback.earlyStopping "val_binary_accuracy" "max" 1 10 false,
                      Callback.modelCheckpoint fn_args.serving_model_dir
                        "val_binary_accuracy" "max" 1 true],
                   epochs := e, verbose := 1 },
          save := { path := fn_args.serving_model_dir, save_format := "tf",
                    signatures :=
                      [("serving_default",
                        { fn := sf,
                          input_spec := { shape := [none], dtype := DType.string,
                                          name := "examples" } })] } } n initW trace =
        (simulateFit fn_args.serving_model_dir 10 n initW trace).writes ++
          [(fn_args.serving_model_dir,
            (simulateFit fn_args.serving_model_dir 10 n initW trace).weights)] := by
    intro x1 x2 x3 x4 x5 x6 x7 x8 x9
    rfl
  refine ⟨rfl, rfl, rfl, heq _ _ _ _ _ _ _ _ _, ?_, ?_⟩
  · intro p x hmem
    rw [heq] at hmem
    rcases List.mem_append.1 hmem with hm | hm
    · exact fitLoop_writes_path fn_args.serving_model_dir 10 trace n (FitSimState.init initW)
        (fun p2 x2 hx => by simp [FitSimState.init] at hx) p x hm
    · simp at hm
      exact hm.1
  · intro k hk
    rcases fitLoop_weights fn_args.serving_model_dir 10 trace n (FitSimState.init initW) with
      ⟨he, hw⟩ | ⟨he, hw⟩
    · have hzero : (FitSimState.init initW).epochs_run = 0 := rfl
      have : (simulateFit fn_args.serving_model_dir 10 n initW trace).epochs_run = 0 := by
        rw [show simulateFit fn_args.serving_model_dir 10 n initW trace =
          fitLoop fn_args.serving_model_dir 10 trace n (FitSimState.init initW) from rfl, he,
          hzero]
      omega
    · have hs : simulateFit fn_args.serving_model_dir 10 n initW trace =
          fitLoop fn_args.serving_model_dir 10 trace n (FitSimState.init initW) := rfl
      rw [hs, hw]
      rw [hs] at hk
      rw [hk]
      simp

/-- Witness for C4 at the concrete example run and a concrete training
trace. -/
theorem export_holds_last_epoch_weights_witness :
    checkpointFilepath exRes.fit.callbacks = some exRes.save.path ∧
    exRes.save.path = exArgs.serving_model_dir ∧
    earlyStoppingRestoreBest exRes.fit.callbacks = some false ∧
    runFnDiskWrites exRes 5 (0 : Nat) (fun k => (k + 1, (k : Rat))) =
      (simulateFit exArgs.serving_model_dir 10 5 (0 : Nat) (fun k => (k + 1, (k : Rat)))).writes ++
        [(exArgs.serving_model_dir,
          (simulateFit exArgs.serving_model_dir 10 5 (0 : Nat)
            (fun k => (k + 1, (k : Rat)))).weights)] ∧
    (∀ p x, (p, x) ∈ runFnDiskWrites exRes 5 (0 : Nat) (fun k => (k + 1, (k : Rat))) →
      p = exArgs.serving_model_dir) ∧
    (∀ k, (simulateFit exArgs.serving_model_dir 10 5 (0 : Nat)
        (fun k => (k + 1, (k : Rat)))).epochs_run = k + 1 →
      (simulateFit exArgs.serving_model_dir 10 5 (0 : Nat)
        (fun k => (k + 1, (k : Rat)))).weights = (k + 1, (k : Rat)).1) :=
  export_holds_last_epoch_weights exLoad exArgs exRes 5 Nat 0 (fun k => (k + 1, (k : Rat)))
    rfl rfl

/-- C5: model_builder reads exactly the keys embedding_size, lstm_units,
hidden_layers, dense_units and dropout_rate — its result depends only on
those keys, and each of them matters — and run_fn additionally reads only
tuner/epochs, which it passes as the epoch count of the train and eval
datasets and as the epochs argument of model.fit: beyond the plumbing of
tuner/epochs, the whole run result is unchanged under any change to the
hyperparameter dict that preserves those six keys, and changing only
tuner/epochs does change the result. -/
theorem hyperparameter_mapping_keys :
    (∀ (v : VectorizerConfig) (hp1 hp2 : Hp), hpAgreeOn hp1 hp2 modelHpKeys →
      model_builder v hp1 = model_builder v hp2) ∧
    (∀ k ∈ modelHpKeys, ∃ (v : VectorizerConfig) (base : Hp) (a b : HVal),
      model_builder v ((k, a) :: base) ≠ model_builder v ((k, b) :: base)) ∧
    (∀ (load : String → TFTransformOutput) (fn_args : FnArgs) (res : RunResult) (hyper : Hp),
      run_fn load fn_args = some res →
      outerGet fn_args.hyperparameters "values" = some hyper →
      ∃ e, hpGet hyper "tuner/epochs" = some e ∧
        res.train_set.num_epochs = e ∧ res.eval_set.num_epochs = e ∧ res.fit.epochs = e) ∧
    (∀ (load : String → TFTransformOutput) (fn_args : FnArgs)
       (d1 d2 : List (String × Hp)) (hp1 hp2 : Hp),
      outerGet d1 "values" = some hp1 →
      outerGet d2 "values" = some hp2 →
      hpAgreeOn hp1 hp2 ("tuner/epochs" :: modelHpKeys) →
      run_fn load { fn_args with hyperparameters := d1 } =
        run_fn load { fn_args with hyperparameters := d2 }) ∧
    (∃ (load : String → TFTransformOutput) (fn_args : FnArgs) (a b : HVal) (base : Hp),
      run_fn load
          { fn_args with hyperparameters := [("values", ("tuner/epochs", a) :: base)] } ≠
        run_fn load
          { fn_args with hyperparameters := [("values", ("tuner/epochs", b) :: base)] }) := by
  refine ⟨model_builder_congr, ?_, ?_, ?_, ?_⟩
  · intro k hk
    simp only [modelHpKeys] at hk
    fin_cases hk
    · exact ⟨exVec, exHp, HVal.int 16, HVal.int 17, by decide⟩
    · exact ⟨exVec, exHp, HVal.int 32, HVal.int 33, by decide⟩
    · exact ⟨exVec, exHp, HVal.int 1, HVal.int 2, by decide⟩
    · exact ⟨exVec, exHp, HVal.int 64, HVal.int 65, by decide⟩
    · exact ⟨exVec, exHp, HVal.float 0, HVal.float 1, by decide⟩
  · intro load fn_args res hyper h houter
    obtain ⟨hyper2, e, m, sf, h1, h2, h3, h4, rfl⟩ := run_fn_eq_some load fn_args res h
    have hh : hyper2 = hyper := Option.some.inj (h1.symm.trans houter)
    subst hh
    exact ⟨e, h2, rfl, rfl, rfl⟩
  · intro load fn_args d1 d2 hp1 hp2 h1 h2 hag
    have he := hag "tuner/epochs" (by simp)
    have hmb := model_builder_congr
      { max_tokens := 5000, output_mode := "int", output_sequence_length := 500 } hp1 hp2
      (fun k hk => hag k (List.mem_cons_of_mem _ hk))
    simp [run_fn, h1, h2, he, hmb]
  · refine ⟨exLoad, exArgs, HVal.int 5, HVal.int 6, exHp, ?_⟩
    intro hc
    have hfp := congrArg (Option.map (fun r => r.train_set.num_epochs)) hc
    exact absurd hfp (by decide)

/-- Witness for C5 at the concrete example run. -/
theorem hyperparameter_mapping_keys_witness :
    ∃ e, hpGet exHp "tuner/epochs" = some e ∧
      exRes.train_set.num_epochs = e ∧ exRes.eval_set.num_epochs = e ∧ exRes.fit.epochs = e :=
  hyperparameter_mapping_keys.2.2.1 exLoad exArgs exRes exHp rfl rfl

/-- C6: when hidden_layers is a non-negative integer n, the built model has
exactly n hidden blocks, each a Dense layer of dense_units units with relu
activation followed by a Dropout layer with rate dropout_rate, between the
bidirectional LSTM and the output layer. -/
theorem model_builder_hidden_block_count (v : VectorizerConfig) (hp : Hp) (n : Nat)
    (es lu du dr : HVal) (m : Model)
    (h1 : hpGet hp "embedding_size" = some es)
    (h2 : hpGet hp "lstm_units" = some lu)
    (h3 : hpGet hp "hidden_layers" = some (HVal.int (n : Int)))
    (h4 : hpGet hp "dense_units" = some du)
    (h5 : hpGet hp "dropout_rate" = some dr)
    (hm : model_builder v hp = some m) :
    m.layers =
      [Layer.textVectorization v, Layer.embedding 5000 es, Layer.bidirectionalLSTM lu]
      ++ List.flatten (List.replicate n [Layer.dense du Activation.relu, Layer.dropout dr])
      ++ [Layer.dense (HVal.int 1) Activation.sigmoid] := by
  obtain ⟨es2, lu2, hl2, n2, blocks2, g1, g2, g3, g4, g5, hmod⟩ :=
    model_builder_eq_some v hp m hm
  have hes : es2 = es := Option.some.inj (g1.symm.trans h1)
  have hlu : lu2 = lu := Option.some.inj (g2.symm.trans h2)
  have hhl : hl2 = HVal.int (n : Int) := Option.some.inj (g3.symm.trans h3)
  subst hes; subst hlu; subst hhl
  have hn2 : n2 = n := by
    simp [pyRange] at g4
    omega
  rw [hn2] at g5
  rw [denseDropoutBlocks_eq hp du dr h4 h5 n] at g5
  have hb : blocks2 =
      List.flatten (List.replicate n [Layer.dense du Activation.relu, Layer.dropout dr]) :=
    (Option.some.inj g5).symm
  subst hb
  subst hmod
  rfl

/-- Witness for C6 at the concrete hyperparameters (two hidden blocks). -/
theorem model_builder_hidden_block_count_witness :
    exModel.layers =
      [Layer.textVectorization exVec, Layer.embedding 5000 (HVal.int 16),
       Layer.bidirectionalLSTM (HVal.int 32)]
      ++ List.flatten (List.replicate 2
          [Layer.dense (HVal.int 64) Activation.relu, Layer.dropout (HVal.float 0)])
      ++ [Layer.dense (HVal.int 1) Activation.sigmoid] :=
  model_builder_hidden_block_count exVec exHp 2 (HVal.int 16) (HVal.int 32) (HVal.int 64)
    (HVal.float 0) exModel rfl rfl rfl rfl rfl rfl

/-- C8: the built model ends in a single-unit Dense layer with sigmoid
activation, is compiled with binary cross-entropy loss, an Adam optimizer at
learning rate 1/10000, and binary accuracy as its metric, and the sigmoid
maps every real into [0, 1]. -/
theorem model_builder_binary_classifier (v : VectorizerConfig) (hp : Hp) (m : Model) (x : ℝ)
    (hm : model_builder v hp = some m) :
    m.layers.getLast? = some (Layer.dense (HVal.int 1) Activation.sigmoid) ∧
    m.compileCfg = { optimizer := Optimizer.adam (1 / 10000)
                     loss := Loss.binaryCrossentropy
                     metrics := [Metric.binaryAccuracy] } ∧
    0 ≤ sigmoidReal x ∧ sigmoidReal x ≤ 1 := by
  obtain ⟨es, lu, hl, n, blocks, g1, g2, g3, g4, g5, rfl⟩ := model_builder_eq_some v hp m hm
  refine ⟨?_, rfl, ?_, ?_⟩
  · exact List.getLast?_concat _
  · show 0 ≤ 1 / (1 + Real.exp (-x))
    positivity
  · have hpos : 0 < 1 + Real.exp (-x) := by positivity
    show 1 / (1 + Real.exp (-x)) ≤ 1
    rw [div_le_one hpos]
    have hexp := Real.exp_pos (-x)
    linarith

/-- Witness for C8 at the concrete hyperparameters and x = 0. -/
theorem model_builder_binary_classifier_witness :
    exModel.layers.getLast? = some (Layer.dense (HVal.int 1) Activation.sigmoid) ∧
    exModel.compileCfg = { optimizer := Optimizer.adam (1 / 10000)
                           loss := Loss.binaryCrossentropy
                           metrics := [Metric.binaryAccuracy] } ∧
    0 ≤ sigmoidReal 0 ∧ sigmoidReal 0 ≤ 1 :=
  model_builder_binary_classifier exVec exHp exModel 0 rfl

/-- C9: run_fn creates the TextVectorization layer with max_tokens 5000 and
output sequence length 500, model_builder creates the Embedding layer with
input_dim 5000, and every index the vectorization model can produce is
strictly below the embedding input dimension. -/
theorem vectorizer_indices_in_embedding_range (load : String → TFTransformOutput)
    (fn_args : FnArgs) (res : RunResult) (vocab tokens : List String) (i : Nat)
    (h : run_fn load fn_args = some res)
    (hi : i ∈ textVectorize res.vectorizer_layer vocab tokens) :
    res.vectorizer_layer.max_tokens = 5000 ∧
    res.vectorizer_layer.output_sequence_length = 500 ∧
    embeddingInputDim res.model.layers = some 5000 ∧
    i < 5000 ∧
    (∀ d, embeddingInputDim res.model.layers = some d → i < d) := by
  obtain ⟨hyper, e, m, sf, h1, h2, h3, h4, rfl⟩ := run_fn_eq_some load fn_args res h
  obtain ⟨es, lu, hl, n, blocks, g1, g2, g3, g4, g5, rfl⟩ :=
    model_builder_eq_some _ hyper m h3
  have hdim : embeddingInputDim
      ([Layer.textVectorization
          { max_tokens := 5000, output_mode := "int", output_sequence_length := 500 },
        Layer.embedding 5000 es, Layer.bidirectionalLSTM lu]
       ++ blocks ++ [Layer.dense (HVal.int 1) Activation.sigmoid]) = some 5000 := by
    simp [embeddingInputDim, List.cons_append]
  have hb : i < 5000 := by
    have := textVectorize_lt_max_tokens
      { max_tokens := 5000, output_mode := "int", output_sequence_length := 500 }
      vocab tokens (by norm_num) i hi
    simpa using this
  refine ⟨rfl, rfl, hdim, hb, ?_⟩
  intro d hd
  have : d = 5000 := Option.some.inj (hd.symm.trans hdim)
  omega

/-- Witness for C9 at the concrete example run: the padding index 0 is in
range. -/
theorem vectorizer_indices_in_embedding_range_witness :
    exRes.vectorizer_layer.max_tokens = 5000 ∧
    exRes.vectorizer_layer.output_sequence_length = 500 ∧
    embeddingInputDim exRes.model.layers = some 5000 ∧
    0 < 5000 ∧
    (∀ d, embeddingInputDim exRes.model.layers = some d → 0 < d) :=
  vectorizer_indices_in_embedding_range exLoad exArgs exRes ["a"] [] 0 rfl (by decide)
